import Mathlib

/-!
Shallow embedding of the streaming multiplexer of the `tastytrade` crate
(`src/streaming/quote_streamer.rs`, `src/streaming/account_streaming.rs`,
`src/types/dxfeed.rs`).  Pure data and the command/state bookkeeping are
translated directly from the Rust source; spawned tasks are modelled as the
lists of commands they submit, and the task scheduler as an interleaving
relation on those lists.
-/

namespace Tasty

/-! ### Event-type flags (`src/types/dxfeed.rs`) -/

/-- Bit flag for quote events (`DXF_ET_QUOTE: i32 = 0x01`). -/
def DXF_ET_QUOTE : Int := 0x01

/-- Bit flag for trade events (`DXF_ET_TRADE: i32 = 0x02`). -/
def DXF_ET_TRADE : Int := 0x02

/-- Bit flag for greeks events (`DXF_ET_GREEKS: i32 = 0x08`). -/
def DXF_ET_GREEKS : Int := 0x08

/-! ### Wire-level data (`dxlink::FeedSubscription`, `dxlink::MarketEvent`) -/

/-- Newtype over the symbol string (`Symbol(pub String)` in the crate). -/
structure Symbol where
  val : String
deriving DecidableEq, Repr

/-- A wire subscription request, `dxlink::FeedSubscription`.  Timestamps are
integral; the payload fields not used by the streamer are elided. -/
structure FeedSubscription where
  event_type : String
  symbol : String
  from_time : Option Int
  source : Option String
deriving DecidableEq, Repr

/-- A decoded market event, `dxlink::MarketEvent`.  Only the routing-relevant
`event_symbol` of each variant is modelled; the floating-point payload fields
play no role in the multiplexer. -/
inductive MarketEvent where
  | Quote (event_symbol : String)
  | Trade (event_symbol : String)
  | Greeks (event_symbol : String)
deriving DecidableEq, Repr

/-! ### Per-symbol request expansion
(`QuoteSubscription::add_symbols` / `QuoteStreamer::close_sub`, the three
`if (event_flags & DXF_ET_*) != 0` blocks) -/

/-- The requests produced for one symbol: one `FeedSubscription` per set flag
among Quote, Trade, Greeks, tested in that order, exactly as the three `if`
blocks in the source do. -/
def requestsFor (event_flags : Int) (sym : Symbol) : List FeedSubscription :=
  (if Int.land event_flags DXF_ET_QUOTE ≠ 0 then
    [⟨"Quote", sym.val, none, none⟩] else []) ++
  (if Int.land event_flags DXF_ET_TRADE ≠ 0 then
    [⟨"Trade", sym.val, none, none⟩] else []) ++
  (if Int.land event_flags DXF_ET_GREEKS ≠ 0 then
    [⟨"Greeks", sym.val, none, none⟩] else [])

/-- The `flat_map` over the symbol list that builds the full request vector. -/
def buildRequests (event_flags : Int) (syms : List Symbol) : List FeedSubscription :=
  (syms.map (requestsFor event_flags)).flatten

/-- Number of requests of a given event kind in a request vector. -/
def countKind (reqs : List FeedSubscription) (kind : String) : Nat :=
  (reqs.filter (fun r => r.event_type = kind)).length

/-! ### Bounded delivery channels (`tokio::sync::mpsc::channel`, `try_send`) -/

/-- A bounded mpsc channel seen from the sender side: its capacity and the
buffered, not-yet-received events. -/
structure BChan where
  cap : Nat
  buf : List MarketEvent
deriving DecidableEq, Repr

/-- The fan-out loop's `sender.try_send(event.clone())`: enqueue when there is
room, otherwise drop the event and leave the channel unchanged (the source
ignores the returned error). -/
def BChan.trySend (c : BChan) (e : MarketEvent) : BChan :=
  if c.buf.length < c.cap then { c with buf := c.buf ++ [e] } else c

/-- One fan-out step over a list of delivery channels: every channel gets an
independent non-blocking `try_send` of its own copy of the event. -/
def fanOutChans (chans : List BChan) (e : MarketEvent) : List BChan :=
  chans.map (fun c => c.trySend e)

/-! ### Commands (`enum DXLinkCommand` in `quote_streamer.rs`)

Channels (`mpsc::Sender<MarketEvent>`) are identified by the natural number
allocated when the channel pair was created; cloning a sender preserves the
identity, which is all the registry model needs. -/

/-- The administrative command queue vocabulary of the quote streamer. -/
inductive DXLinkCommand where
  | Subscribe (channel : Nat) (subs : List FeedSubscription)
  | Unsubscribe (channel : Nat) (subs : List FeedSubscription)
  | CreateEventStream
  | AddEventSender (id : Nat) (sender : Nat)
  | RemoveEventSender (id : Nat)
  | Disconnect
deriving DecidableEq, Repr

/-! ### Subscription handle (`QuoteSubscription`) -/

/-- The externally held subscription handle.  `dxlink_receiver` names the
channel whose receiving end this handle holds; the `flume` legacy receiver is
not modelled (its sender is dropped at creation, so it never yields events). -/
structure QuoteSubscription where
  id : Nat
  event_types : Int
  dxlink_receiver : Nat
  symbols : List Symbol
deriving DecidableEq, Repr

/-- The body of `QuoteSubscription::add_symbols`.  The method takes `&self`:
it collects the incoming symbols into a local `my_symbols` vector that is
never stored anywhere, builds the per-flag requests, and (when a command
channel and a channel id exist) submits one `Subscribe` command if the request
vector is non-empty.  The handle itself is returned unchanged, because the
source never writes to `self.symbols`. -/
def QuoteSubscription.add_symbols (sub : QuoteSubscription) (channel_id : Option Nat)
    (syms : List Symbol) : QuoteSubscription × List DXLinkCommand :=
  let subscriptions := buildRequests sub.event_types syms
  match channel_id with
  | some ch =>
      (sub, if subscriptions.isEmpty then [] else [DXLinkCommand.Subscribe ch subscriptions])
  | none => (sub, [])

/-- `impl Clone for QuoteSubscription`: a clone creates a fresh delivery
channel (`mpsc::channel(100)`), registers it with `AddEventSender` under the
same id, and shares the id/flags/symbol bookkeeping. -/
def QuoteSubscription.cloneSub (sub : QuoteSubscription) (freshChan : Nat) :
    QuoteSubscription × List DXLinkCommand :=
  ({ sub with dxlink_receiver := freshChan },
   [DXLinkCommand.AddEventSender sub.id freshChan])

/-! ### Streamer bookkeeping (`QuoteStreamer`) -/

/-- Association-list lookup mirroring `HashMap::get` on the subscription map
(keys are unique). -/
def lookupAssoc : List (Nat × QuoteSubscription) → Nat → Option QuoteSubscription
  | [], _ => none
  | (k, v) :: rest, id => if k = id then some v else lookupAssoc rest id

/-- `HashMap::insert` for a fresh key (ids are never reused, so no
replacement happens on reachable states; stale entries with the same key are
dropped to keep the map a map). -/
def insertAssoc (m : List (Nat × QuoteSubscription)) (k : Nat) (v : QuoteSubscription) :
    List (Nat × QuoteSubscription) :=
  (m.filter (fun p => p.1 ≠ k)) ++ [(k, v)]

/-- `HashMap::remove`. -/
def eraseAssoc (m : List (Nat × QuoteSubscription)) (k : Nat) :
    List (Nat × QuoteSubscription) :=
  m.filter (fun p => p.1 ≠ k)

/-- The streamer's own bookkeeping.  `next_chan` models the allocation of
fresh `mpsc::channel` pairs, so that distinct channels get distinct names; the
command sender `dxlink_command_tx` is always present after `connect`, so only
`channel_id` is kept optional as in the source. -/
structure QuoteStreamer where
  channel_id : Option Nat
  next_sub_id : Nat
  subscription_map : List (Nat × QuoteSubscription)
  next_chan : Nat
deriving DecidableEq, Repr

/-- The streamer state `connect` returns: a fresh channel id from the
transport, id counter at 0, empty subscription map. -/
def initStreamer : QuoteStreamer := ⟨some 1, 0, [], 0⟩

/-- `QuoteStreamer::create_sub`: allocate the next id, create the delivery
channel pair, submit `AddEventSender(id, tx)`, submit `CreateEventStream` iff
the subscription map is still empty and a channel id exists, then `clone()`
the subscription (which creates a second fresh channel and submits a second
`AddEventSender`), store the original in `subscription_map` and hand the clone
to the caller.  Returns (new state, returned handle, submitted commands in
program spawn order). -/
def QuoteStreamer.create_sub (st : QuoteStreamer) (flags : Int) :
    QuoteStreamer × QuoteSubscription × List DXLinkCommand :=
  let id := st.next_sub_id
  let internalChan := st.next_chan
  let sub : QuoteSubscription := ⟨id, flags, internalChan, []⟩
  let firstCmds :=
    [DXLinkCommand.AddEventSender id internalChan] ++
      (if st.subscription_map.isEmpty ∧ st.channel_id.isSome then
        [DXLinkCommand.CreateEventStream] else [])
  let (subClone, cloneCmds) := sub.cloneSub (st.next_chan + 1)
  ({ st with
      next_sub_id := id + 1
      next_chan := st.next_chan + 2
      subscription_map := insertAssoc st.subscription_map id sub },
   subClone, firstCmds ++ cloneCmds)

/-- `QuoteStreamer::close_sub`: when the id is present, compute the
unsubscribe requests from the stored subscription's symbols and flags and
(when a command sender and channel id exist) submit `RemoveEventSender(id)`
followed by `Unsubscribe` when the request vector is non-empty; in every case
remove the id from the map. -/
def QuoteStreamer.close_sub (st : QuoteStreamer) (id : Nat) :
    QuoteStreamer × List DXLinkCommand :=
  let cmds :=
    match lookupAssoc st.subscription_map id, st.channel_id with
    | some sub, some ch =>
        let requests := buildRequests sub.event_types sub.symbols
        [DXLinkCommand.RemoveEventSender id] ++
          (if requests.isEmpty then [] else [DXLinkCommand.Unsubscribe ch requests])
    | _, _ => []
  ({ st with subscription_map := eraseAssoc st.subscription_map id }, cmds)

/-! ### Streamer call traces -/

/-- A caller-side operation on one streamer. -/
inductive StreamerOp where
  | createSub (flags : Int)
  | closeSub (id : Nat)
deriving DecidableEq, Repr

/-- Run a sequence of caller operations, collecting every command they submit
to the command queue, in order. -/
def runOps : QuoteStreamer → List StreamerOp → QuoteStreamer × List DXLinkCommand
  | st, [] => (st, [])
  | st, StreamerOp.createSub flags :: rest =>
      let (st2, _, cmds) := st.create_sub flags
      let (st3, cmds2) := runOps st2 rest
      (st3, cmds ++ cmds2)
  | st, StreamerOp.closeSub id :: rest =>
      let (st2, cmds) := st.close_sub id
      let (st3, cmds2) := runOps st2 rest
      (st3, cmds ++ cmds2)

/-- Number of `CreateEventStream` commands in a command list. -/
def countCES (cmds : List DXLinkCommand) : Nat :=
  (cmds.filter (fun c => c = DXLinkCommand.CreateEventStream)).length

/-- Number of `AddEventSender` commands for a given subscription id. -/
def isAddFor (id : Nat) (c : DXLinkCommand) : Bool :=
  match c with
  | DXLinkCommand.AddEventSender j _ => j = id
  | _ => false

/-! ### Dispatcher task and fan-out loop
(the `tokio::spawn` command handler inside `QuoteStreamer::connect`) -/

/-- `event_senders.entry(subscription_id).or_default(); senders.push(sender)`:
append the channel to the id's sender list, creating the entry when absent. -/
def addSender : List (Nat × List Nat) → Nat → Nat → List (Nat × List Nat)
  | [], id, ch => [(id, [ch])]
  | (k, chans) :: rest, id, ch =>
      if k = id then (k, chans ++ [ch]) :: rest
      else (k, chans) :: addSender rest id ch

/-- `event_senders.remove(&subscription_id)`. -/
def removeSender (m : List (Nat × List Nat)) (id : Nat) : List (Nat × List Nat) :=
  m.filter (fun p => p.1 ≠ id)

/-- State owned by the dispatcher task: the live `event_senders` registry and,
for every fan-out task spawned by a `CreateEventStream` command, the
`event_senders.clone()` snapshot that task captured (`let senders =
event_senders.clone();` in the source). -/
structure DispatcherState where
  event_senders : List (Nat × List Nat)
  fanout_tasks : List (List (Nat × List Nat))
  disconnected : Bool
deriving DecidableEq, Repr

/-- Dispatcher state when the command handler task starts. -/
def initDispatcher : DispatcherState := ⟨[], [], false⟩

/-- One iteration of the dispatcher's `while let Some(cmd) = command_rx.recv()`
loop.  `Subscribe`/`Unsubscribe` only talk to the transport; `Disconnect`
breaks the loop, after which no further command is processed. -/
def DispatcherState.processCommand (d : DispatcherState) (c : DXLinkCommand) :
    DispatcherState :=
  if d.disconnected then d else
  match c with
  | DXLinkCommand.Subscribe _ _ => d
  | DXLinkCommand.Unsubscribe _ _ => d
  | DXLinkCommand.CreateEventStream =>
      { d with fanout_tasks := d.fanout_tasks ++ [d.event_senders] }
  | DXLinkCommand.AddEventSender id ch =>
      { d with event_senders := addSender d.event_senders id ch }
  | DXLinkCommand.RemoveEventSender id =>
      { d with event_senders := removeSender d.event_senders id }
  | DXLinkCommand.Disconnect => { d with disconnected := true }

/-- Drain a list of queued commands through the dispatcher. -/
def processCommands (d : DispatcherState) (cs : List DXLinkCommand) : DispatcherState :=
  cs.foldl DispatcherState.processCommand d

/-- Every delivery channel present in the live registry (the Subscription
Registry of the spec). -/
def registryChannels (d : DispatcherState) : List Nat :=
  (d.event_senders.map Prod.snd).flatten

/-- The channels that actually receive a `try_send` of the next wire event:
each running fan-out task iterates its own captured snapshot, not the live
registry.  The source routes every event to every snapshot channel (no
per-symbol filtering), so the recipient set does not depend on the event. -/
def fanoutRecipients (d : DispatcherState) : List Nat :=
  (d.fanout_tasks.map (fun m => (m.map Prod.snd).flatten)).flatten

/-! ### Streamer teardown (`impl Drop for QuoteStreamer`) and task scheduling -/

/-- The detached tasks `Drop` spawns, in spawn order: one close-sequence task
per registered subscription (each submits that subscription's `close_sub`
commands in order) and finally one task submitting `Disconnect`.  Erasing
earlier ids does not change what `close_sub` submits for a later id, so each
task's commands are computed from the state at drop time. -/
def dropTasks (st : QuoteStreamer) : List (List DXLinkCommand) :=
  st.subscription_map.map (fun p => (st.close_sub p.1).2) ++ [[DXLinkCommand.Disconnect]]

/-- `Sched tasks out` holds when `out` is a possible order in which the
scheduler lets the spawned tasks submit their commands to the command queue:
an arbitrary interleaving that preserves each task's own order. -/
inductive Sched : List (List DXLinkCommand) → List DXLinkCommand → Prop where
  | done : ∀ ts, (∀ t ∈ ts, t = []) → Sched ts []
  | step : ∀ (pre : List (List DXLinkCommand)) (c : DXLinkCommand) rest post out,
      Sched (pre ++ rest :: post) out →
      Sched (pre ++ (c :: rest) :: post) (c :: out)

/-- Is a command part of a close sequence (sender removal or unsubscribe)? -/
def isCloseCmd (c : DXLinkCommand) : Bool :=
  match c with
  | DXLinkCommand.RemoveEventSender _ => true
  | DXLinkCommand.Unsubscribe _ _ => true
  | _ => false

/-- True when no close-sequence command appears after the first `Disconnect`
in the submitted command order — the order the claim requires. -/
def closeBeforeDisc (out : List DXLinkCommand) : Bool :=
  ((out.dropWhile (fun c => ¬ c = DXLinkCommand.Disconnect)).drop 1).all
    (fun c => ¬ isCloseCmd c)

/-! ### Account streamer (`src/streaming/account_streaming.rs`) -/

/-- A decoded account event (`enum AccountEvent`); payloads are collapsed to
the identifying string, which is all the read-loop model routes on. -/
inductive AccountEvent where
  | ErrorMessage (message : String)
  | StatusMessage (status : String)
  | AccountMessage (payload : String)
deriving DecidableEq, Repr

/-- The legacy websocket read loop inside `AccountStreamer::connect`:
`while let Some(message) = read.next().await { let data: AccountEvent =
serde_json::from_slice(&data).unwrap(); event_sender.send_async(data) ... }`.
`decode` stands for `serde_json::from_slice`, returning `none` on malformed
input.  The result is the list of events forwarded to `event_sender`, paired
with `true` when the `.unwrap()` panicked (which kills the task, so the
remaining messages are never processed). -/
def readLoopRun (decode : String → Option AccountEvent) :
    List String → List AccountEvent × Bool
  | [] => ([], false)
  | m :: rest =>
      match decode m with
      | some e =>
          let (evs, p) := readLoopRun decode rest
          (e :: evs, p)
      | none => ([], true)

/-- A sample decoder: every wire string decodes to a status message except the
literal "bad", which is malformed. -/
def demoDecode (s : String) : Option AccountEvent :=
  if s = "bad" then none else some (AccountEvent.StatusMessage s)

/-- The action vocabulary of the account action channel
(`enum SubRequestAction`). -/
inductive SubRequestAction where
  | Heartbeat
  | Connect
  | PublicWatchlistsSubscribe
  | QuoteAlertsSubscribe
  | UserMessageSubscribe
deriving DecidableEq, Repr

/-- The heartbeat task of `AccountStreamer::connect`: `loop { sleep(30);
if send(Heartbeat).is_err() break }`, discretised to one step per 30-second
interval.  `ok i` tells whether the action channel still accepts a send at
interval `i` (its receiver not yet dropped); `n` is the number of elapsed
intervals.  Returns the actions the task submitted. -/
def heartbeatRun (ok : Nat → Bool) : Nat → Nat → List SubRequestAction
  | _, 0 => []
  | i, n + 1 =>
      if ok i then SubRequestAction.Heartbeat :: heartbeatRun ok (i + 1) n
      else []

/-! ### Helper lemmas -/

theorem countKind_append (a b : List FeedSubscription) (k : String) :
    countKind (a ++ b) k = countKind a k + countKind b k := by
  simp [countKind, List.filter_append]

theorem countKind_requestsFor_quote (flags : Int) (s : Symbol) :
    countKind (requestsFor flags s) "Quote" =
      if Int.land flags DXF_ET_QUOTE ≠ 0 then 1 else 0 := by
  unfold requestsFor
  split_ifs <;> rfl

theorem countKind_requestsFor_trade (flags : Int) (s : Symbol) :
    countKind (requestsFor flags s) "Trade" =
      if Int.land flags DXF_ET_TRADE ≠ 0 then 1 else 0 := by
  unfold requestsFor
  split_ifs <;> rfl

theorem countKind_requestsFor_greeks (flags : Int) (s : Symbol) :
    countKind (requestsFor flags s) "Greeks" =
      if Int.land flags DXF_ET_GREEKS ≠ 0 then 1 else 0 := by
  unfold requestsFor
  split_ifs <;> rfl

theorem countKind_buildRequests (flags : Int) (syms : List Symbol) (k : String)
    (mask : Int)
    (h : ∀ s : Symbol, countKind (requestsFor flags s) k =
      if Int.land flags mask ≠ 0 then 1 else 0) :
    countKind (buildRequests flags syms) k =
      if Int.land flags mask ≠ 0 then syms.length else 0 := by
  induction syms with
  | nil => simp [buildRequests, countKind]
  | cons s rest ih =>
      have hstep : buildRequests flags (s :: rest) =
          requestsFor flags s ++ buildRequests flags rest := by
        simp [buildRequests]
      rw [hstep, countKind_append, h s, ih]
      split_ifs <;> simp [Nat.add_comm]

/-! ### Claim theorems -/

/-- C5: `add_symbols(["AAPL"])` on a handle whose flags are exactly
Quote|Trade produces exactly the two requests `Quote`/`AAPL` and
`Trade`/`AAPL` and no `Greeks` request; in general, each symbol contributes
one request per set flag among Quote, Trade and Greeks. -/
theorem C5_requests_per_flag :
    buildRequests (Int.lor DXF_ET_QUOTE DXF_ET_TRADE) [⟨"AAPL"⟩] =
      [⟨"Quote", "AAPL", none, none⟩, ⟨"Trade", "AAPL", none, none⟩]
  ∧ countKind (buildRequests (Int.lor DXF_ET_QUOTE DXF_ET_TRADE) [⟨"AAPL"⟩]) "Greeks" = 0
  ∧ (∀ (flags : Int) (syms : List Symbol),
      countKind (buildRequests flags syms) "Quote" =
        if Int.land flags DXF_ET_QUOTE ≠ 0 then syms.length else 0)
  ∧ (∀ (flags : Int) (syms : List Symbol),
      countKind (buildRequests flags syms) "Trade" =
        if Int.land flags DXF_ET_TRADE ≠ 0 then syms.length else 0)
  ∧ (∀ (flags : Int) (syms : List Symbol),
      countKind (buildRequests flags syms) "Greeks" =
        if Int.land flags DXF_ET_GREEKS ≠ 0 then syms.length else 0) := by
  refine ⟨by decide, by decide, ?_, ?_, ?_⟩
  · intro flags syms
    exact countKind_buildRequests flags syms "Quote" DXF_ET_QUOTE
      (countKind_requestsFor_quote flags)
  · intro flags syms
    exact countKind_buildRequests flags syms "Trade" DXF_ET_TRADE
      (countKind_requestsFor_trade flags)
  · intro flags syms
    exact countKind_buildRequests flags syms "Greeks" DXF_ET_GREEKS
      (countKind_requestsFor_greeks flags)

/-- C1: after the dispatcher processes `AddEventSender(0, ch 10)`,
`CreateEventStream`, `AddEventSender(1, ch 11)`, channel 11 is present in the
Subscription Registry, yet the fan-out loop's recipient set — the snapshot
`event_senders.clone()` captured when `CreateEventStream` was handled — still
contains only channel 10, so the next wire event is never copied to channel
11.  This refutes delivery to every channel present at event-processing time. -/
theorem C1_snapshot_misses_later_sender :
    (11 ∈ registryChannels (processCommands initDispatcher
        [DXLinkCommand.AddEventSender 0 10, DXLinkCommand.CreateEventStream,
         DXLinkCommand.AddEventSender 1 11]))
  ∧ fanoutRecipients (processCommands initDispatcher
        [DXLinkCommand.AddEventSender 0 10, DXLinkCommand.CreateEventStream,
         DXLinkCommand.AddEventSender 1 11]) = [10]
  ∧ (11 ∉ fanoutRecipients (processCommands initDispatcher
        [DXLinkCommand.AddEventSender 0 10, DXLinkCommand.CreateEventStream,
         DXLinkCommand.AddEventSender 1 11])) := by
  refine ⟨by decide, by decide, by decide⟩

/-- C2: `add_symbols` never merges the new symbols into the handle's tracked
symbol set — the method takes `&self` and its local `my_symbols` vector is
discarded — so after `add_symbols(["AAPL"])` on a fresh Quote|Trade handle the
tracked set is still empty (not the union `["AAPL"]`), the `Subscribe` command
is still submitted, and a subsequent `close_sub` submits no `Unsubscribe` at
all for the added symbol. -/
theorem C2_symbols_never_tracked :
    ((QuoteSubscription.add_symbols ⟨0, Int.lor DXF_ET_QUOTE DXF_ET_TRADE, 0, []⟩
        (some 1) [⟨"AAPL"⟩]).1).symbols = []
  ∧ (QuoteSubscription.add_symbols ⟨0, Int.lor DXF_ET_QUOTE DXF_ET_TRADE, 0, []⟩
        (some 1) [⟨"AAPL"⟩]).2 =
      [DXLinkCommand.Subscribe 1
        [⟨"Quote", "AAPL", none, none⟩, ⟨"Trade", "AAPL", none, none⟩]]
  ∧ (QuoteStreamer.close_sub
        ⟨some 1, 1, [(0, ⟨0, Int.lor DXF_ET_QUOTE DXF_ET_TRADE, 0, []⟩)], 2⟩ 0).2 =
      [DXLinkCommand.RemoveEventSender 0] := by
  refine ⟨by decide, by decide, by decide⟩

/-- C3: the legacy account read loop decodes each wire message with
`serde_json::from_slice(&data).unwrap()`; on the first malformed message the
`unwrap` panics, the loop's task dies, and later well-formed messages are
never delivered.  With messages `["ok1", "bad", "ok2"]` (where "bad" fails to
decode) the run delivers only the first event and ends in a panic, instead of
skipping "bad" and continuing with "ok2". -/
theorem C3_malformed_message_panics :
    readLoopRun demoDecode ["ok1", "bad", "ok2"] =
      ([AccountEvent.StatusMessage "ok1"], true)
  ∧ (AccountEvent.StatusMessage "ok2") ∉ (readLoopRun demoDecode ["ok1", "bad", "ok2"]).1 := by
  refine ⟨by decide, by decide⟩

/-- C4 counterexample: over the lifetime of one streamer, the trace
`create_sub; close_sub 0; create_sub` submits `CreateEventStream` twice — the
guard is `subscription_map.is_empty()`, which becomes true again after all
subscriptions are closed — refuting "at most once over the Streamer's whole
lifetime". -/
theorem C4_counterexample_two_streams :
    countCES ((runOps initStreamer
      [StreamerOp.createSub (Int.lor DXF_ET_QUOTE DXF_ET_TRADE),
       StreamerOp.closeSub 0,
       StreamerOp.createSub (Int.lor DXF_ET_QUOTE DXF_ET_TRADE)]).2) = 2 := by
  decide

/-- C4 amended: `create_sub` submits `CreateEventStream` exactly when it is
called while the subscription map is empty (and a transport channel exists) —
once on the first subscription, but again whenever a new subscription follows
the closing of all previous ones — and `close_sub` never submits it. -/
theorem C4_amended_stream_per_empty_epoch :
    (∀ (st : QuoteStreamer) (flags : Int),
      countCES (st.create_sub flags).2.2 =
        if st.subscription_map.isEmpty ∧ st.channel_id.isSome then 1 else 0)
  ∧ (∀ (st : QuoteStreamer) (id : Nat), countCES (st.close_sub id).2 = 0) := by
  constructor
  · intro st flags
    simp only [QuoteStreamer.create_sub, QuoteSubscription.cloneSub, countCES]
    split <;> simp
  · intro st id
    simp only [QuoteStreamer.close_sub, countCES]
    cases hl : lookupAssoc st.subscription_map id <;>
      cases hc : st.channel_id <;> simp [hl, hc]

/-- C6: whenever the command list submitted by `close_sub` contains an
`Unsubscribe`, the `RemoveEventSender(id)` for the same subscription occurs
strictly before it; the reverse order never occurs. -/
theorem C6_remove_before_unsubscribe (st : QuoteStreamer) (id : Nat)
    (l1 l2 : List DXLinkCommand) (ch : Nat) (reqs : List FeedSubscription)
    (h : (st.close_sub id).2 = l1 ++ DXLinkCommand.Unsubscribe ch reqs :: l2) :
    DXLinkCommand.RemoveEventSender id ∈ l1 := by
  rcases hl : lookupAssoc st.subscription_map id with _ | sub <;>
    rcases hc : st.channel_id with _ | ch2 <;>
      simp only [QuoteStreamer.close_sub, hl, hc, List.singleton_append] at h
  · exact absurd h (by simp)
  · exact absurd h (by simp)
  · exact absurd h (by simp)
  · split at h
    · rcases l1 with _ | ⟨a, t⟩ <;> simp_all
    · rcases l1 with _ | ⟨a, t⟩
      · simp_all
      · rcases t with _ | ⟨b, t2⟩ <;> simp_all

/-- C6 witness: on a streamer holding subscription 0 with the Quote flag and
tracked symbol "SPX", `close_sub 0` submits `[RemoveEventSender 0,
Unsubscribe ...]`, and the theorem places the removal in the prefix. -/
theorem C6_remove_before_unsubscribe_witness :
    DXLinkCommand.RemoveEventSender 0 ∈ ([DXLinkCommand.RemoveEventSender 0] :
      List DXLinkCommand) :=
  C6_remove_before_unsubscribe
    ⟨some 1, 1, [(0, ⟨0, DXF_ET_QUOTE, 0, [⟨"SPX"⟩]⟩)], 2⟩ 0
    [DXLinkCommand.RemoveEventSender 0] [] 1 [⟨"Quote", "SPX", none, none⟩]
    (by decide)

theorem foldl_trySend_length (es : List MarketEvent) (c : BChan)
    (h : c.buf.length ≤ c.cap) :
    ((es.foldl BChan.trySend c).buf).length = min c.cap (c.buf.length + es.length) := by
  induction es generalizing c with
  | nil => simp; omega
  | cons e es ih =>
      simp only [List.foldl_cons]
      by_cases hlt : c.buf.length < c.cap
      · have hs : BChan.trySend c e = { c with buf := c.buf ++ [e] } := by
          simp [BChan.trySend, hlt]
        rw [hs, ih _ (by simp; omega)]
        simp; omega
      · have hs : BChan.trySend c e = c := by
          simp [BChan.trySend, hlt]
        rw [hs, ih c h]
        omega

/-- C7: delivery is non-blocking.  Pushing `N + 5` events through `try_send`
into an empty channel of capacity `N` with no consumer retains exactly `N`
events (the rest are dropped), and during fan-out a full channel drops the
event for that subscriber only: every channel with room receives its own copy
regardless of the other channels' states. -/
theorem C7_nonblocking_fanout :
    (∀ (N : Nat) (es : List MarketEvent), es.length = N + 5 →
      ((es.foldl BChan.trySend ⟨N, []⟩).buf).length = N)
  ∧ (∀ (chans : List BChan) (e : MarketEvent) (i : Nat) (c : BChan),
      chans[i]? = some c → c.buf.length < c.cap →
      (fanOutChans chans e)[i]? = some { c with buf := c.buf ++ [e] }) := by
  constructor
  · intro N es h
    rw [foldl_trySend_length es ⟨N, []⟩ (by simp), h]
    simp
  · intro chans e i c hc hlt
    simp [fanOutChans, List.getElem?_map, hc, BChan.trySend, hlt]

/-- C7 witness: a capacity-1 channel fed six events retains exactly one, and
with one full channel and one channel with room, the channel with room still
receives the event. -/
theorem C7_nonblocking_fanout_witness :
    (([MarketEvent.Quote "A", MarketEvent.Quote "B", MarketEvent.Quote "C",
       MarketEvent.Quote "D", MarketEvent.Quote "E",
       MarketEvent.Quote "F"].foldl BChan.trySend ⟨1, []⟩).buf).length = 1
  ∧ (fanOutChans [⟨0, []⟩, ⟨2, []⟩] (MarketEvent.Trade "X"))[1]? =
      some ⟨2, [MarketEvent.Trade "X"]⟩ :=
  ⟨C7_nonblocking_fanout.1 1
      [MarketEvent.Quote "A", MarketEvent.Quote "B", MarketEvent.Quote "C",
       MarketEvent.Quote "D", MarketEvent.Quote "E", MarketEvent.Quote "F"]
      (by decide),
   C7_nonblocking_fanout.2 [⟨0, []⟩, ⟨2, []⟩] (MarketEvent.Trade "X") 1 ⟨2, []⟩
      (by decide) (by decide)⟩

theorem sched_cons_nil {ts : List (List DXLinkCommand)} {out : List DXLinkCommand}
    (h : Sched ts out) : Sched ([] :: ts) out := by
  induction h with
  | done ts h =>
      refine Sched.done ([] :: ts) ?_
      intro t ht
      rcases List.mem_cons.mp ht with rfl | ht2
      · rfl
      · exact h t ht2
  | step pre c rest post out hs ih =>
      exact Sched.step ([] :: pre) c rest post out ih

theorem sched_task_first (t : List DXLinkCommand) {ts : List (List DXLinkCommand)}
    {out : List DXLinkCommand} (h : Sched ts out) : Sched (t :: ts) (t ++ out) := by
  induction t with
  | nil => simpa using sched_cons_nil h
  | cons c t ih => exact Sched.step [] c t ts (t ++ out) ih

theorem sched_flatten (ts : List (List DXLinkCommand)) : Sched ts ts.flatten := by
  induction ts with
  | nil =>
      refine Sched.done [] ?_
      intro t ht
      cases ht
  | cons t ts ih => simpa using sched_task_first t ih

theorem disconnect_not_mem_close_sub (st : QuoteStreamer) (id : Nat) :
    DXLinkCommand.Disconnect ∉ (st.close_sub id).2 := by
  rcases hl : lookupAssoc st.subscription_map id with _ | sub <;>
    rcases hc : st.channel_id with _ | ch <;>
      simp [QuoteStreamer.close_sub, hl, hc]

theorem dropWhile_until_disconnect (l : List DXLinkCommand)
    (h : ∀ c ∈ l, c ≠ DXLinkCommand.Disconnect) :
    (l ++ [DXLinkCommand.Disconnect]).dropWhile
      (fun c => ¬ c = DXLinkCommand.Disconnect) = [DXLinkCommand.Disconnect] := by
  induction l with
  | nil => simp [List.dropWhile]
  | cons a l ih =>
      have ha : a ≠ DXLinkCommand.Disconnect := h a (List.mem_cons_self a l)
      have hrec := ih (fun c hc => h c (List.mem_cons_of_mem a hc))
      simp only [List.cons_append, List.dropWhile_cons]
      rw [if_pos (by simpa using ha)]
      exact hrec

/-- C8 amended: `Drop` spawns the close-sequence task of every registered
subscription before spawning the `Disconnect` task, so under the schedule
that lets the spawned tasks submit in spawn order every close command
precedes `Disconnect` and `Disconnect` is the last command submitted; but
that order is one schedule among the valid interleavings, not an invariant of
all of them. -/
theorem C8_amended_spawn_order_disconnect_last (st : QuoteStreamer) :
    Sched (dropTasks st) (dropTasks st).flatten
  ∧ closeBeforeDisc (dropTasks st).flatten = true
  ∧ ((dropTasks st).flatten).getLast? = some DXLinkCommand.Disconnect := by
  have hflat : (dropTasks st).flatten =
      (st.subscription_map.map (fun p => (st.close_sub p.1).2)).flatten ++
        [DXLinkCommand.Disconnect] := by
    simp [dropTasks]
  have hno : ∀ c ∈ (st.subscription_map.map
      (fun p => (st.close_sub p.1).2)).flatten, c ≠ DXLinkCommand.Disconnect := by
    intro c hcmem heq
    rcases List.mem_flatten.mp hcmem with ⟨l, hl, hcl⟩
    rcases List.mem_map.mp hl with ⟨p, _, rfl⟩
    exact disconnect_not_mem_close_sub st p.1 (heq ▸ hcl)
  refine ⟨sched_flatten _, ?_, ?_⟩
  · rw [hflat]
    unfold closeBeforeDisc
    rw [dropWhile_until_disconnect _ hno]
    simp [isCloseCmd]
  · rw [hflat]
    simp

/-- C8 counterexample: for a streamer holding one subscription (id 0, Quote
flag, symbol "SPX"), the interleaving that schedules the `Disconnect` task
first is a valid schedule of the detached tasks spawned by `Drop`, and in the
resulting submission order `Disconnect` precedes the whole close sequence —
so the claimed ordering is not guaranteed. -/
theorem C8_counterexample_disconnect_first :
    Sched (dropTasks ⟨some 1, 1, [(0, ⟨0, DXF_ET_QUOTE, 0, [⟨"SPX"⟩]⟩)], 2⟩)
      [DXLinkCommand.Disconnect, DXLinkCommand.RemoveEventSender 0,
       DXLinkCommand.Unsubscribe 1 [⟨"Quote", "SPX", none, none⟩]]
  ∧ closeBeforeDisc
      [DXLinkCommand.Disconnect, DXLinkCommand.RemoveEventSender 0,
       DXLinkCommand.Unsubscribe 1 [⟨"Quote", "SPX", none, none⟩]] = false := by
  constructor
  · have h1 : dropTasks ⟨some 1, 1, [(0, ⟨0, DXF_ET_QUOTE, 0, [⟨"SPX"⟩]⟩)], 2⟩ =
        [[DXLinkCommand.RemoveEventSender 0,
          DXLinkCommand.Unsubscribe 1 [⟨"Quote", "SPX", none, none⟩]],
         [DXLinkCommand.Disconnect]] := by decide
    rw [h1]
    refine Sched.step
      [[DXLinkCommand.RemoveEventSender 0,
        DXLinkCommand.Unsubscribe 1 [⟨"Quote", "SPX", none, none⟩]]]
      DXLinkCommand.Disconnect [] [] _ ?_
    refine Sched.step [] (DXLinkCommand.RemoveEventSender 0)
      [DXLinkCommand.Unsubscribe 1 [⟨"Quote", "SPX", none, none⟩]] [[]] _ ?_
    refine Sched.step [] (DXLinkCommand.Unsubscribe 1
      [⟨"Quote", "SPX", none, none⟩]) [] [[]] _ ?_
    refine Sched.done [[], []] ?_
    intro t ht
    rcases List.mem_cons.mp ht with rfl | ht2
    · rfl
    · rcases List.mem_cons.mp ht2 with rfl | ht3
      · rfl
      · cases ht3
  · decide

/-- C9: the heartbeat task submits exactly one `Heartbeat` per elapsed
30-second interval while the action channel accepts sends (three intervals
give exactly three heartbeats); everything it ever submits is a `Heartbeat`
(never a subscribe/unsubscribe action); and a failed send stops the loop
immediately — nothing further is submitted, and in particular the task
submits nothing that tears the streamer down. -/
theorem C9_heartbeat_per_interval :
    (∀ (n : Nat) (ok : Nat → Bool), (∀ i, ok i = true) →
      ∀ i, heartbeatRun ok i n = List.replicate n SubRequestAction.Heartbeat)
  ∧ (∀ (n i : Nat) (ok : Nat → Bool) (a : SubRequestAction),
      a ∈ heartbeatRun ok i n → a = SubRequestAction.Heartbeat)
  ∧ (∀ (n i : Nat) (ok : Nat → Bool), ok i = false → heartbeatRun ok i n = []) := by
  refine ⟨?_, ?_, ?_⟩
  · intro n ok h
    induction n with
    | zero => intro i; rfl
    | succ n ih =>
        intro i
        simp [heartbeatRun, h i, ih (i + 1), List.replicate_succ]
  · intro n
    induction n with
    | zero =>
        intro i ok a ha
        simp [heartbeatRun] at ha
    | succ n ih =>
        intro i ok a ha
        by_cases hok : ok i = true
        · simp only [heartbeatRun, hok, if_true] at ha
          rcases List.mem_cons.mp ha with rfl | ha2
          · rfl
          · exact ih (i + 1) ok a ha2
        · simp [heartbeatRun, hok] at ha
  · intro n i ok h
    cases n with
    | zero => rfl
    | succ n => simp [heartbeatRun, h]

/-- C9 witness: with the action channel always open, three elapsed intervals
produce exactly three heartbeat actions. -/
theorem C9_heartbeat_per_interval_witness :
    heartbeatRun (fun _ => true) 0 3 =
      List.replicate 3 SubRequestAction.Heartbeat :=
  C9_heartbeat_per_interval.1 3 (fun _ => true) (fun _ => rfl) 0

theorem lookupAssoc_insertAssoc (m : List (Nat × QuoteSubscription)) (k : Nat)
    (v : QuoteSubscription) : lookupAssoc (insertAssoc m k v) k = some v := by
  induction m with
  | nil => simp [insertAssoc, lookupAssoc]
  | cons p m ih =>
      obtain ⟨a, b⟩ := p
      by_cases hp : a = k
      · have hstep : insertAssoc ((a, b) :: m) k v = insertAssoc m k v := by
          simp [insertAssoc, hp]
        rw [hstep]
        exact ih
      · have hstep : insertAssoc ((a, b) :: m) k v = (a, b) :: insertAssoc m k v := by
          simp [insertAssoc, hp]
        rw [hstep]
        simpa [lookupAssoc, hp] using ih

/-- C10: every `create_sub(flags)` call submits two `AddEventSender` commands
for the newly allocated id — one for the delivery channel of the subscription
it stores in `subscription_map`, and one for the fresh channel created by the
`clone()` whose handle is returned to the caller.  The stored copy keeps the
first channel's receiving end, the caller gets the second, and once the
dispatcher processes the submitted commands both channels sit in the
Subscription Registry, so each fanned-out event is also copied into the
internal channel no caller reads. -/
theorem C10_create_sub_registers_two_senders (st : QuoteStreamer) (flags : Int) :
    ((st.create_sub flags).2.2).filter (isAddFor st.next_sub_id) =
      [DXLinkCommand.AddEventSender st.next_sub_id st.next_chan,
       DXLinkCommand.AddEventSender st.next_sub_id (st.next_chan + 1)]
  ∧ lookupAssoc ((st.create_sub flags).1).subscription_map st.next_sub_id =
      some ⟨st.next_sub_id, flags, st.next_chan, []⟩
  ∧ ((st.create_sub flags).2.1).dxlink_receiver = st.next_chan + 1
  ∧ st.next_chan ≠ st.next_chan + 1
  ∧ registryChannels (processCommands initDispatcher (st.create_sub flags).2.2) =
      [st.next_chan, st.next_chan + 1] := by
  refine ⟨?_, ?_, ?_, by omega, ?_⟩
  · simp only [QuoteStreamer.create_sub, QuoteSubscription.cloneSub]
    split <;> simp [isAddFor]
  · simp only [QuoteStreamer.create_sub, QuoteSubscription.cloneSub]
    exact lookupAssoc_insertAssoc st.subscription_map st.next_sub_id _
  · simp [QuoteStreamer.create_sub, QuoteSubscription.cloneSub]
  · simp only [QuoteStreamer.create_sub, QuoteSubscription.cloneSub]
    split <;>
      simp [processCommands, DispatcherState.processCommand, initDispatcher,
        addSender, registryChannels]

end Tasty
